import Mathlib

/-!
# Verification of the voice playback session manager

Shallow embedding of the music-session subsystem of the repository:
* namespace `MP` embeds `src/bot/cogs/music/music_player.py` (the cog with
  loop/autoplay flags, skip voting and the waiting-for-listeners flag);
* namespace `MC` embeds `src/bot/cogs/music.py` (the cog with explicit
  queue auto-advance in `on_wavelink_track_end`, `ensure_voice`,
  `volume` and `shuffle`).

Python attributes become structure fields; the wavelink backend's
observable player state (`is_playing()` / `is_paused()`) is modelled by
the explicit boolean fields `playing` / `paused`.  Fallible commands
return `Except MusicErr`.
-/

/-- A resolved track descriptor (wavelink `Playable` plus the
`requested_by` attribute the cogs attach to it). -/
structure Track where
  id : Nat
  title : String
  author : String
  uri : Option String
  requestedBy : Option Nat
deriving DecidableEq

/-- Track-end reasons delivered by the backend
(`payload.reason` in `on_wavelink_track_end`); `finished` corresponds to
the code's string `"FINISHED"`. -/
inductive EndReason where
  | finished
  | stopped
  | replaced
  | loadFailed
deriving DecidableEq

/-- The user-visible error kinds of the command handlers. -/
inductive MusicErr where
  | notInVoice
  | wrongChannel
  | noResults
  | joinFailed
  | emptyQueue
  | notPlaying
  | alreadyPaused
  | notPaused
deriving DecidableEq

namespace MP

/-- The per-guild `MusicPlayer` of `music_player.py` (lines 20-32):
`queue`, `waiting`, `current`, `bound_channel`, `last_activity`,
`autoplay`, `loop`, `skip_votes`, together with the wavelink-level
connection channel and observable playing/paused state. -/
structure Player where
  queue : List Track
  waiting : Bool
  current : Option Track
  boundChannel : Option Nat
  lastActivity : Nat
  autoplay : Bool
  loop : Bool
  skipVotes : Finset Nat
  channel : Option Nat
  playing : Bool
  paused : Bool
  volume : Nat
deriving DecidableEq

/-- `current = None ⟺ state ∈ {Idle, Stopped}`: the session states
Idle and Stopped are exactly the configurations where the backend is
neither playing nor paused. -/
def invariantC1 (p : Player) : Prop :=
  p.current = none ↔ (p.playing = false ∧ p.paused = false)

instance (p : Player) : Decidable (invariantC1 p) := by
  unfold invariantC1; infer_instance

/-- `on_wavelink_track_start` (music_player.py lines 126-140): set the
current track, refresh the activity clock and clear the skip votes.
Starting a track means the backend is playing and not paused. -/
def onTrackStart (p : Player) (t : Track) (now : Nat) : Player :=
  { p with current := some t, lastActivity := now,
           skipVotes := ∅, playing := true, paused := false }

/-- `suggested.requested_by = payload.track.requested_by`
(music_player.py lines 227-228): the autoplay suggestion inherits the
requesting user of the finished track when that track has one. -/
def tagRequester (t s : Track) : Track :=
  match t.requestedBy with
  | some u => { s with requestedBy := some u }
  | none => s

/-- The queue left by the body of `on_wavelink_track_end`
(music_player.py lines 206-235): on a natural finish with loop enabled,
the finished track is re-appended (and the handler returns early, so
the autoplay block is skipped); otherwise, when autoplay is on, the
queue is empty, the finish was natural and the track has a URI, the
catalog suggestion (the `suggested` oracle, tagged with the requester)
is appended if one was found. -/
def trackEndQueue (p : Player) (t : Track) (reason : EndReason)
    (suggested : Option Track) : List Track :=
  if p.loop = true ∧ reason = EndReason.finished then p.queue ++ [t]
  else if p.autoplay = true ∧ p.queue = [] ∧ reason = EndReason.finished ∧
      t.uri ≠ none then
    match suggested with
    | some s => p.queue ++ [tagRequester t s]
    | none => p.queue
  else p.queue

/-- The body of `on_wavelink_track_end` (music_player.py lines 195-239):
refresh the activity clock, update the queue per `trackEndQueue`, and
clear `current` when the queue is left empty (lines 238-239; the loop
branch returns early before that check, but it always leaves a non-empty
queue, so stating the clearing on the final queue is equivalent).  At a
track-end event the backend is no longer playing or paused. -/
def trackEndBody (p : Player) (t : Track) (reason : EndReason)
    (suggested : Option Track) (now : Nat) : Player :=
  let q := trackEndQueue p t reason suggested
  { p with lastActivity := now, playing := false, paused := false,
           queue := q, current := if q = [] then none else p.current }

/-- Queue auto-advance: after a track ends, the backend pops the queue
head and starts it, which fires `on_wavelink_track_start`
(this is the pop-and-play step written out in music.py lines 75-77). -/
def advance (p : Player) (now : Nat) : Player :=
  match p.queue with
  | [] => p
  | next :: rest => onTrackStart { p with queue := rest } next now

/-- A complete track-end transition: the handler body of
`on_wavelink_track_end` followed by the backend's queue auto-advance. -/
def onTrackEnd (p : Player) (t : Track) (reason : EndReason)
    (suggested : Option Track) (now : Nat) : Player :=
  advance (trackEndBody p t reason suggested now) now

/-- `on_voice_state_update`, first branch (music_player.py lines
273-300): the voice channel lost its last non-bot member; if the player
is playing, pause it and set the `waiting` flag. -/
def onChannelEmpty (p : Player) : Player :=
  if p.playing = true then
    { p with playing := false, paused := true, waiting := true }
  else p

/-- `on_voice_state_update`, second branch (music_player.py lines
302-328): a non-bot member joined; if the player is paused because the
channel had emptied (`waiting`), resume and clear the flag. -/
def onMemberJoin (p : Player) : Player :=
  if p.paused = true ∧ p.waiting = true then
    { p with playing := true, paused := false, waiting := false }
  else p

/-- `/pause` (music_player.py lines 879-916): requires an active track,
the caller in the bot's voice channel and the player not already
paused; then the backend pauses. -/
def pauseCmd (p : Player) (inCh : Bool) (now : Nat) : Except MusicErr Player :=
  if p.playing = false then .error .notPlaying
  else if inCh = false then .error .notInVoice
  else if p.paused = true then .error .alreadyPaused
  else .ok { p with playing := false, paused := true, lastActivity := now }

/-- `/resume` (music_player.py lines 918-958): requires a current track,
the caller in the bot's voice channel and the player paused; resumes and
resets the `waiting` flag (line 944). -/
def resumeCmd (p : Player) (inCh : Bool) (now : Nat) : Except MusicErr Player :=
  if p.current = none then .error .notPlaying
  else if inCh = false then .error .notInVoice
  else if p.paused = false then .error .notPaused
  else .ok { p with playing := true, paused := false, waiting := false,
                    lastActivity := now }

/-- `/stop` (music_player.py lines 803-836): requires playing and the
caller in the bot's channel; clears the queue, stops the backend (which
delivers a track-end event with reason stopped for the current track),
sets `current = None` and refreshes the activity clock. -/
def stopCmd (p : Player) (inCh : Bool) (now : Nat) : Except MusicErr Player :=
  if p.playing = false then .error .notPlaying
  else if inCh = false then .error .notInVoice
  else
    let p1 := { p with queue := ([] : List Track) }
    let p2 : Player :=
      match p1.current with
      | some t => onTrackEnd p1 t EndReason.stopped none now
      | none => { p1 with playing := false, paused := false }
    .ok { p2 with current := none, lastActivity := now }

/-- `/volume` (music_player.py lines 838-877): requires the caller in
the bot's channel; sets the backend volume (the slash-command layer
restricts `level` to 0-100 in this cog). -/
def volumeCmd (p : Player) (inCh : Bool) (level now : Nat) :
    Except MusicErr Player :=
  if inCh = false then .error .notInVoice
  else .ok { p with volume := level, lastActivity := now }

/-- `player.current.requested_by.id == inter.author.id`
(music_player.py lines 650-654). -/
def isRequester (p : Player) (caller : Nat) : Bool :=
  match p.current with
  | some t => decide (t.requestedBy = some caller)
  | none => false

/-- `required_votes = len(non-bot members) // 2 + 1`
(music_player.py line 678). -/
def requiredVotes (listeners : Nat) : Nat := listeners / 2 + 1

/-- Outcome of the `/skip` command: an error, a performed skip carrying
the resulting player state, or a recorded vote below threshold carrying
the updated state, the tally and the requirement. -/
inductive SkipResult where
  | err (e : MusicErr)
  | skipped (p : Player)
  | pending (p : Player) (votes required : Nat)
deriving DecidableEq

/-- `await player.skip()`: the backend ends the current track with
reason stopped, which runs the track-end transition. -/
def doSkip (p : Player) (now : Nat) : Player :=
  match p.current with
  | some t => onTrackEnd p t EndReason.stopped none now
  | none => p

/-- The voting branch of `/skip` (music_player.py lines 677-718): add
the caller to `skip_votes`; skip when the tally reaches
`requiredVotes`, otherwise report the tally and the requirement. -/
def voteSkip (p : Player) (caller listeners now : Nat) : SkipResult :=
  let required := requiredVotes listeners
  let p1 := { p with skipVotes := insert caller p.skipVotes }
  if required ≤ p1.skipVotes.card then .skipped (doSkip p1 now)
  else .pending p1 p1.skipVotes.card required

/-- `/skip` (music_player.py lines 620-718): requires playing and the
caller in the bot's channel; refreshes the activity clock; bypasses
voting when the caller has manage-channels/administrator permission
(`isDJ`), requested the current track, or passed `force`; otherwise
votes. -/
def skipCmd (p : Player) (caller : Nat) (isDJ force inCh : Bool)
    (listeners now : Nat) : SkipResult :=
  if p.playing = false then .err .notPlaying
  else if inCh = false then .err .notInVoice
  else
    let p1 := { p with lastActivity := now }
    if isDJ = true ∨ isRequester p1 caller = true ∨ force = true then
      .skipped (doSkip p1 now)
    else
      voteSkip p1 caller listeners now

/-- The player state resulting from a `/skip`; errors happen before any
mutation, so they leave the given state unchanged. -/
def SkipResult.toPlayer (r : SkipResult) (fallback : Player) : Player :=
  match r with
  | .err _ => fallback
  | .skipped p => p
  | .pending p _ _ => p

/-- `true` exactly on a performed skip. -/
def SkipResult.isSkipped : SkipResult → Bool
  | .skipped _ => true
  | _ => false

/-- The reported `(votes, required)` pair of a below-threshold vote. -/
def SkipResult.tally : SkipResult → Option (Nat × Nat)
  | .pending _ v r => some (v, r)
  | _ => none

/-- Queueing phase of `/play` once the player is connected
(music_player.py lines 556-607): tag the track with the requesting
user; if already playing, append to the queue, else start it (firing
`on_wavelink_track_start`). -/
def playEnqueue (p : Player) (t : Track) (author now : Nat) : Player :=
  let p1 := { p with lastActivity := now }
  let t1 := { t with requestedBy := some author }
  if p1.playing = true then { p1 with queue := p1.queue ++ [t1] }
  else onTrackStart p1 t1 now

/-- The player freshly constructed by `_get_player(create=True)`
(music_player.py lines 351-359): empty queue, nothing current, bound to
the invoking text channel, default volume, not yet connected to voice. -/
def freshPlayer (boundCh now defaultVolume : Nat) : Player :=
  { queue := [], waiting := false, current := none,
    boundChannel := some boundCh, lastActivity := now, autoplay := false,
    loop := false, skipVotes := ∅, channel := none, playing := false,
    paused := false, volume := defaultVolume }

/-- `_get_player(inter, create=True)` (music_player.py lines 332-360)
for one guild: the registry slot is `Option Player`; a missing player is
constructed and inserted into `self.players` immediately. -/
def getPlayerCreate (reg : Option Player) (boundCh now defaultVolume : Nat) :
    Player × Option Player :=
  match reg with
  | some p => (p, some p)
  | none =>
    let p := freshPlayer boundCh now defaultVolume
    (p, some p)

/-- The session-creation and connect phase of `/play` (music_player.py
lines 431-463): reject callers not in voice; get or create the player
(inserting it into the registry); if the player has no voice channel,
attempt to connect — on failure return an error (the registry keeps
whatever `getPlayerCreate` left in it); on success record the channel,
refresh the activity clock and rebind the text channel.  Returns the
resulting registry slot together with the command outcome. -/
def playConnect (reg : Option Player) (userChannel : Option Nat)
    (boundCh : Nat) (joinOk : Bool) (now defaultVolume : Nat) :
    Option Player × Except MusicErr Unit :=
  match userChannel with
  | none => (reg, .error .notInVoice)
  | some ch =>
    let pr := getPlayerCreate reg boundCh now defaultVolume
    let p := pr.1
    if p.channel = none then
      if joinOk = true then
        (some { p with channel := some ch, lastActivity := now,
                       boundChannel := some boundCh }, .ok ())
      else
        (pr.2, .error .joinFailed)
    else
      (some { p with lastActivity := now, boundChannel := some boundCh },
       .ok ())

/-- The operations and events of one session, as delivered to the
serialized per-guild context (spec section 5): wavelink events, voice
occupancy changes and the user commands. -/
inductive Op where
  | evTrackStart (t : Track) (now : Nat)
  | evTrackEnd (t : Track) (reason : EndReason) (suggested : Option Track)
      (now : Nat)
  | evChannelEmpty
  | evMemberJoin
  | cmdPause (inCh : Bool) (now : Nat)
  | cmdResume (inCh : Bool) (now : Nat)
  | cmdStop (inCh : Bool) (now : Nat)
  | cmdVolume (inCh : Bool) (level now : Nat)
  | cmdSkip (caller : Nat) (isDJ force inCh : Bool) (listeners now : Nat)
  | cmdPlay (t : Track) (author now : Nat)

/-- A failed command leaves the session unchanged. -/
def resultPlayer (r : Except MusicErr Player) (fallback : Player) : Player :=
  match r with
  | .ok p => p
  | .error _ => fallback

/-- One step of the session: apply an operation or event to the player
state. -/
def step (p : Player) : Op → Player
  | .evTrackStart t now => onTrackStart p t now
  | .evTrackEnd t reason s now => onTrackEnd p t reason s now
  | .evChannelEmpty => onChannelEmpty p
  | .evMemberJoin => onMemberJoin p
  | .cmdPause inCh now => resultPlayer (pauseCmd p inCh now) p
  | .cmdResume inCh now => resultPlayer (resumeCmd p inCh now) p
  | .cmdStop inCh now => resultPlayer (stopCmd p inCh now) p
  | .cmdVolume inCh level now => resultPlayer (volumeCmd p inCh level now) p
  | .cmdSkip caller isDJ force inCh listeners now =>
      (skipCmd p caller isDJ force inCh listeners now).toPlayer p
  | .cmdPlay t author now => playEnqueue p t author now

end MP

namespace MC

/-- The wavelink player as used by `src/bot/cogs/music.py`: the voice
channel it is connected to, its queue, the playing track and the
backend volume. -/
structure MCPlayer where
  channel : Option Nat
  queue : List Track
  current : Option Track
  playing : Bool
  volume : Nat
deriving DecidableEq

/-- The player `ensure_voice` constructs by connecting to the caller's
channel (music.py lines 144-154); 100 is the backend's default
volume. -/
def newPlayer (uch : Nat) : MCPlayer :=
  { channel := some uch, queue := [], current := none, playing := false,
    volume := 100 }

/-- `ensure_voice` (music.py lines 117-167): error when the caller is
not in a voice channel; connect and create a session when there is no
player; reconnect a disconnected player to the caller's channel; error
when the caller is in a different channel than the bot. -/
def ensureVoice (userChannel : Option Nat) (player : Option MCPlayer) :
    Except MusicErr MCPlayer :=
  match userChannel with
  | none => .error .notInVoice
  | some uch =>
    match player with
    | none => .ok (newPlayer uch)
    | some p =>
      if p.channel = none then .ok { p with channel := some uch }
      else if p.channel ≠ some uch then .error .wrongChannel
      else .ok p

/-- `true` on a successful command outcome. -/
def isOkE {α : Type} : Except MusicErr α → Bool
  | .ok _ => true
  | .error _ => false

/-- `/volume` (music.py lines 680-714): the parameter layer restricts
`level` to 0-150; after `ensure_voice` passes, set the backend
volume. -/
def volumeCmd (userChannel : Option Nat) (player : Option MCPlayer)
    (level : Nat) : Except MusicErr MCPlayer :=
  match ensureVoice userChannel player with
  | .error e => .error e
  | .ok p => .ok { p with volume := level }

/-- Modelled from the spec: `wavelink.Queue.shuffle` (the library call
at music.py line 778, not part of the repository) “permutes uniformly at
random”; the randomness is passed in as a list of draws and each draw
selects the next element of the permutation. -/
def shuffleWith {α : Type} : List Nat → List α → List α
  | [], xs => xs
  | _ :: _, [] => []
  | r :: rs, x :: xs =>
    let l := x :: xs
    let i : Fin l.length := ⟨r % l.length, Nat.mod_lt r (Nat.succ_pos xs.length)⟩
    l.get i :: shuffleWith rs (l.eraseIdx i.val)

/-- `/shuffle` (music.py lines 754-788): after `ensure_voice` passes,
error when the queue is empty, otherwise shuffle the queue in place. -/
def shuffleCmd (userChannel : Option Nat) (player : Option MCPlayer)
    (rs : List Nat) : Except MusicErr MCPlayer :=
  match ensureVoice userChannel player with
  | .error e => .error e
  | .ok p =>
    if p.queue = [] then .error .emptyQueue
    else .ok { p with queue := shuffleWith rs p.queue }

/-- `on_wavelink_track_end` (music.py lines 69-90): when the guild has a
registered session and the queue is non-empty, pop the front track and
start it; otherwise do nothing.  The sessions registry (the key set of
`self.sessions`) is passed through untouched — the handler never adds or
removes a session entry. -/
def onTrackEnd (sessions : List Nat) (guildId : Nat) (p : MCPlayer) :
    List Nat × MCPlayer :=
  match p.queue with
  | [] => (sessions, p)
  | next :: rest =>
    if guildId ∈ sessions then
      (sessions, { p with current := some next, queue := rest, playing := true })
    else (sessions, p)

end MC

/-- A concrete track requested by user 99. -/
def trackA : Track :=
  { id := 1, title := "A", author := "artA", uri := some "uA",
    requestedBy := some 99 }

/-- A concrete track requested by user 98. -/
def trackB : Track :=
  { id := 2, title := "B", author := "artB", uri := some "uB",
    requestedBy := some 98 }

namespace MP

/-- A session playing `trackA` with an empty queue and loop enabled. -/
def loopPlayer : Player :=
  { queue := [], waiting := false, current := some trackA,
    boundChannel := some 10, lastActivity := 0, autoplay := false,
    loop := true, skipVotes := ∅, channel := some 5, playing := true,
    paused := false, volume := 50 }

/-- A session playing `trackA` with one stale skip vote and an empty
queue. -/
def stalePlayer : Player := { loopPlayer with loop := false, skipVotes := {1} }

/-- A session playing `trackA` with stale skip votes and `trackB`
queued. -/
def advPlayer : Player :=
  { loopPlayer with loop := false, queue := [trackB], skipVotes := {1, 2} }

/-- A session playing `trackA` with `trackB` queued and no votes yet;
the scenario state for the five-listener vote law. -/
def votingPlayer : Player := { loopPlayer with loop := false, queue := [trackB] }

/-- A session paused because the voice channel emptied
(`waiting = true`), with `trackA` still current. -/
def waitingPlayer : Player :=
  { loopPlayer with loop := false, playing := false, paused := true,
                    waiting := true }

/-- One `/skip` invocation by a non-privileged caller with five non-bot
listeners. -/
def voteStep (p : Player) (caller : Nat) : SkipResult :=
  skipCmd p caller false false true 5 0

/-- The session state after that invocation. -/
def voteAfter (p : Player) (caller : Nat) : Player :=
  (voteStep p caller).toPlayer p

end MP

namespace MC

/-- A session playing `trackA` with the bot connected to voice channel
1. -/
def volPlayer : MCPlayer :=
  { channel := some 1, queue := [], current := some trackA, playing := true,
    volume := 100 }

/-- A connected session whose queue holds exactly one track. -/
def onePlayer : MCPlayer :=
  { channel := some 1, queue := [trackA], current := none, playing := false,
    volume := 100 }

end MC

namespace MP

theorem trackEndBody_playing (p : Player) (t : Track) (reason : EndReason)
    (s : Option Track) (now : Nat) :
    (trackEndBody p t reason s now).playing = false := rfl

theorem trackEndBody_paused (p : Player) (t : Track) (reason : EndReason)
    (s : Option Track) (now : Nat) :
    (trackEndBody p t reason s now).paused = false := rfl

theorem trackEndBody_queue_nil_current (p : Player) (t : Track)
    (reason : EndReason) (s : Option Track) (now : Nat)
    (hq : (trackEndBody p t reason s now).queue = []) :
    (trackEndBody p t reason s now).current = none := by
  simp only [trackEndBody] at hq ⊢
  simp [hq]

theorem invariantC1_onTrackStart (p : Player) (t : Track) (now : Nat) :
    invariantC1 (onTrackStart p t now) := by
  simp [invariantC1, onTrackStart]

theorem onTrackStart_skipVotes (p : Player) (t : Track) (now : Nat) :
    (onTrackStart p t now).skipVotes = ∅ := rfl

theorem invariantC1_advance (p : Player) (now : Nat)
    (h : p.queue = [] →
      p.current = none ∧ p.playing = false ∧ p.paused = false) :
    invariantC1 (advance p now) := by
  unfold advance
  split
  next heq =>
    obtain ⟨h1, h2, h3⟩ := h heq
    simp [invariantC1, h1, h2, h3]
  next a l heq => exact invariantC1_onTrackStart _ _ _

theorem invariantC1_onTrackEnd (p : Player) (t : Track) (reason : EndReason)
    (s : Option Track) (now : Nat) :
    invariantC1 (onTrackEnd p t reason s now) := by
  unfold onTrackEnd
  apply invariantC1_advance
  intro hq
  exact ⟨trackEndBody_queue_nil_current p t reason s now hq,
    trackEndBody_playing p t reason s now,
    trackEndBody_paused p t reason s now⟩

end MP

namespace MP

theorem invariantC1_doSkip (p : Player) (now : Nat) (h : invariantC1 p) :
    invariantC1 (doSkip p now) := by
  unfold doSkip
  split
  next t ht => exact invariantC1_onTrackEnd _ _ _ _ _
  next => exact h

theorem invariantC1_step (p : Player) (op : Op) (h : invariantC1 p) :
    invariantC1 (step p op) := by
  cases op with
  | evTrackStart t now => exact invariantC1_onTrackStart p t now
  | evTrackEnd t reason s now => exact invariantC1_onTrackEnd p t reason s now
  | evChannelEmpty =>
    simp only [step, onChannelEmpty]
    split
    next hp =>
      simp only [invariantC1] at h ⊢
      simp [hp] at h
      simp [h]
    next => exact h
  | evMemberJoin =>
    simp only [step, onMemberJoin]
    split
    next hp =>
      simp only [invariantC1] at h ⊢
      simp [hp.1] at h
      simp [h]
    next => exact h
  | cmdPause inCh now =>
    simp only [step]
    cases hc : pauseCmd p inCh now with
    | error e => simpa [resultPlayer] using h
    | ok p' =>
      simp only [resultPlayer]
      unfold pauseCmd at hc
      split at hc
      next => exact absurd hc (by simp)
      next h1 =>
        split at hc
        next => exact absurd hc (by simp)
        next =>
          split at hc
          next => exact absurd hc (by simp)
          next =>
            injection hc with hh
            subst hh
            simp at h1
            simp only [invariantC1] at h ⊢
            simp [h1] at h
            simp [h]
  | cmdResume inCh now =>
    simp only [step]
    cases hc : resumeCmd p inCh now with
    | error e => simpa [resultPlayer] using h
    | ok p' =>
      simp only [resultPlayer]
      unfold resumeCmd at hc
      split at hc
      next => exact absurd hc (by simp)
      next h1 =>
        split at hc
        next => exact absurd hc (by simp)
        next =>
          split at hc
          next => exact absurd hc (by simp)
          next =>
            injection hc with hh
            subst hh
            simp [invariantC1, h1]
  | cmdStop inCh now =>
    simp only [step]
    cases hc : stopCmd p inCh now with
    | error e => simpa [resultPlayer] using h
    | ok p' =>
      simp only [resultPlayer]
      unfold stopCmd at hc
      split at hc
      next => exact absurd hc (by simp)
      next =>
        split at hc
        next => exact absurd hc (by simp)
        next =>
          injection hc with hh
          subst hh
          cases hcur : p.current <;>
            simp [invariantC1, onTrackEnd, advance, trackEndBody,
              trackEndQueue, hcur]
  | cmdVolume inCh level now =>
    simp only [step]
    cases hc : volumeCmd p inCh level now with
    | error e => simpa [resultPlayer] using h
    | ok p' =>
      simp only [resultPlayer]
      unfold volumeCmd at hc
      split at hc
      next => exact absurd hc (by simp)
      next =>
        injection hc with hh
        subst hh
        simpa [invariantC1] using h
  | cmdSkip caller isDJ force inCh listeners now =>
    simp only [step, skipCmd]
    split
    next => simpa [SkipResult.toPlayer] using h
    next =>
      split
      next => simpa [SkipResult.toPlayer] using h
      next =>
        split
        next =>
          simp only [SkipResult.toPlayer]
          apply invariantC1_doSkip
          simpa [invariantC1] using h
        next =>
          simp only [voteSkip]
          split
          next =>
            simp only [SkipResult.toPlayer]
            apply invariantC1_doSkip
            simpa [invariantC1] using h
          next =>
            simp only [SkipResult.toPlayer]
            simpa [invariantC1] using h
  | cmdPlay t author now =>
    simp only [step, playEnqueue]
    split
    next hp =>
      simp only [invariantC1] at h ⊢
      simp [hp] at h
      simp [h, hp]
    next => exact invariantC1_onTrackStart _ _ _

end MP

namespace MP

/-- C1: for every session and after every operation or event, the
current track is `none` exactly when the session state is Idle or
Stopped (the backend neither playing nor paused); in particular a
track-end whose handler leaves the queue empty clears `current`, and a
successful `/stop` clears `current`. -/
theorem current_none_iff_idle :
    (∀ (p : Player) (op : Op), invariantC1 p → invariantC1 (step p op)) ∧
    (∀ (p : Player) (t : Track) (reason : EndReason) (s : Option Track)
       (now : Nat), (trackEndBody p t reason s now).queue = [] →
       (trackEndBody p t reason s now).current = none) ∧
    (∀ (p : Player) (inCh : Bool) (now : Nat) (p' : Player),
       stopCmd p inCh now = .ok p' → p'.current = none) := by
  refine ⟨invariantC1_step, trackEndBody_queue_nil_current, ?_⟩
  intro p inCh now p' hc
  unfold stopCmd at hc
  split at hc
  next => exact absurd hc (by simp)
  next =>
    split at hc
    next => exact absurd hc (by simp)
    next =>
      injection hc with hh
      subst hh
      rfl

/-- Witness for C1: the invariant holds for a concrete playing session
and is preserved by a concrete loop-finish track-end event. -/
theorem current_none_iff_idle_witness :
    invariantC1 loopPlayer ∧
    invariantC1 (step loopPlayer
      (Op.evTrackEnd trackA EndReason.finished none 7)) :=
  ⟨by decide, current_none_iff_idle.1 loopPlayer _ (by decide)⟩

/-- C2: with loop enabled, a natural-finish track end re-appends the
finished track to the queue tail exactly once; a stopped track end
(skip or stop) never re-appends; and from `queue = [], current = A,
loop = true`, `trackEnd(A, finished)` yields `current = A, queue = []`
with A requeued then immediately redrawn, never duplicated. -/
theorem loop_requeue_once :
    (∀ (p : Player) (t : Track) (s : Option Track), p.loop = true →
       trackEndQueue p t EndReason.finished s = p.queue ++ [t]) ∧
    (∀ (p : Player) (t : Track) (s : Option Track),
       trackEndQueue p t EndReason.stopped s = p.queue) ∧
    onTrackEnd loopPlayer trackA EndReason.finished none 7 =
      { loopPlayer with current := some trackA, queue := [],
                        lastActivity := 7, skipVotes := ∅ } := by
  refine ⟨?_, ?_, by decide⟩
  · intro p t s hl
    simp [trackEndQueue, hl]
  · intro p t s
    simp [trackEndQueue]

/-- Witness for C2: the loop re-queue law applied at the concrete
loop-enabled session. -/
theorem loop_requeue_once_witness :
    loopPlayer.loop = true ∧
    trackEndQueue loopPlayer trackA EndReason.finished none =
      loopPlayer.queue ++ [trackA] :=
  ⟨by decide, loop_requeue_once.1 loopPlayer trackA none (by decide)⟩

/-- C3 counterexample: the track-end handler body never touches
`skip_votes`, so a track end that leaves the session idle keeps the
stale vote set non-empty, contradicting the claim that `skipVotes` is
empty immediately after any track-end event. -/
theorem skip_votes_survive_track_end :
    (onTrackEnd stalePlayer trackA EndReason.finished none 3).skipVotes ≠
      (∅ : Finset Nat) := by decide

/-- C3 amended: the skip votes are cleared on every track start — hence
also after any track end that auto-advances into a new track — but a
track end that leaves the queue empty keeps the stale votes until the
next track start. -/
theorem skip_votes_cleared_on_transition :
    (∀ (p : Player) (t : Track) (now : Nat),
       (onTrackStart p t now).skipVotes = ∅) ∧
    (∀ (p : Player) (t : Track) (reason : EndReason) (s : Option Track)
       (now : Nat), (onTrackEnd p t reason s now).playing = true →
       (onTrackEnd p t reason s now).skipVotes = ∅) := by
  constructor
  · intro p t now
    rfl
  · intro p t reason s now hp
    unfold onTrackEnd advance at hp ⊢
    cases hq : (trackEndBody p t reason s now).queue with
    | nil =>
      simp only [hq] at hp
      rw [trackEndBody_playing] at hp
      exact absurd hp (by simp)
    | cons a l =>
      simp only [hq]
      rfl

/-- Witness for C3 (amended): a track end from a session with stale
votes and a queued track advances and leaves the vote set empty. -/
theorem skip_votes_cleared_on_transition_witness :
    (onTrackEnd advPlayer trackA EndReason.finished none 5).skipVotes = ∅ :=
  skip_votes_cleared_on_transition.2 advPlayer trackA EndReason.finished none 5
    (by decide)

end MP

namespace MP

/-- C4: a non-bypassing caller is added to the vote set and the track is
skipped exactly when the tally reaches `listeners / 2 + 1`, otherwise
the tally and requirement are reported; with five non-bot listeners the
threshold is three distinct voters, and after the vote skip the ensuing
track start clears the votes, so a fourth distinct voter yields a fresh
1-of-3 tally rather than a second skip. -/
theorem skip_vote_threshold :
    (∀ (p : Player) (caller listeners now : Nat),
       requiredVotes listeners ≤ (insert caller p.skipVotes).card →
       voteSkip p caller listeners now =
         .skipped (doSkip { p with skipVotes := insert caller p.skipVotes }
           now)) ∧
    (∀ (p : Player) (caller listeners now : Nat),
       (insert caller p.skipVotes).card < requiredVotes listeners →
       voteSkip p caller listeners now =
         .pending { p with skipVotes := insert caller p.skipVotes }
           (insert caller p.skipVotes).card (requiredVotes listeners)) ∧
    requiredVotes 5 = 3 ∧
    (voteStep votingPlayer 1).tally = some (1, 3) ∧
    (voteStep (voteAfter votingPlayer 1) 2).tally = some (2, 3) ∧
    (voteStep (voteAfter (voteAfter votingPlayer 1) 2) 3).isSkipped = true ∧
    (voteAfter (voteAfter (voteAfter votingPlayer 1) 2) 3).current =
      some trackB ∧
    (voteAfter (voteAfter (voteAfter votingPlayer 1) 2) 3).skipVotes = ∅ ∧
    (voteStep (voteAfter (voteAfter (voteAfter votingPlayer 1) 2) 3)
      4).isSkipped = false ∧
    (voteStep (voteAfter (voteAfter (voteAfter votingPlayer 1) 2) 3)
      4).tally = some (1, 3) := by
  refine ⟨?_, ?_, by decide, by decide, by decide, by decide, by decide,
    by decide, by decide, by decide⟩
  · intro p caller listeners now hge
    simp [voteSkip, hge]
  · intro p caller listeners now hlt
    simp [voteSkip, Nat.not_le.mpr hlt]

/-- Witness for C4: the third distinct vote out of five listeners meets
the threshold and skips. -/
theorem skip_vote_threshold_witness :
    requiredVotes 5 ≤ (insert 3 ({1, 2} : Finset Nat)).card ∧
    voteSkip { votingPlayer with skipVotes := {1, 2} } 3 5 0 =
      .skipped (doSkip { votingPlayer with
        skipVotes := insert 3 ({1, 2} : Finset Nat) } 0) :=
  ⟨by decide,
   skip_vote_threshold.1 { votingPlayer with skipVotes := {1, 2} } 3 5 0
     (by decide)⟩

/-- C5: for a playing session with the caller in the bot's channel, the
skip command bypasses voting and skips unconditionally exactly when the
caller has manage-channels/administrator permission, requested the
current track, or passed the force flag (the flag is accepted from any
caller); otherwise it enters the voting path. -/
theorem skip_bypass_condition (p : Player) (caller : Nat)
    (isDJ force : Bool) (listeners now : Nat) (hplay : p.playing = true) :
    (isDJ = true ∨ isRequester { p with lastActivity := now } caller = true ∨
        force = true →
      skipCmd p caller isDJ force true listeners now =
        .skipped (doSkip { p with lastActivity := now } now)) ∧
    (isDJ = false → isRequester { p with lastActivity := now } caller = false →
        force = false →
      skipCmd p caller isDJ force true listeners now =
        voteSkip { p with lastActivity := now } caller listeners now) := by
  constructor
  · intro hby
    simp only [skipCmd]
    rw [if_neg (by simp [hplay]), if_neg (by simp), if_pos hby]
  · intro h1 h2 h3
    simp only [skipCmd]
    rw [if_neg (by simp [hplay]), if_neg (by simp),
      if_neg (by simp [h1, h2, h3])]

/-- Witness for C5: a caller with the force flag bypasses voting on the
concrete playing session. -/
theorem skip_bypass_condition_witness :
    skipCmd votingPlayer 2 false true true 5 0 =
      .skipped (doSkip { votingPlayer with lastActivity := 0 } 0) :=
  (skip_bypass_condition votingPlayer 2 false true 5 0 (by decide)).1
    (by simp)

/-- C6 counterexample: from a session paused because the channel emptied
(`waiting = true`), a plain resume command succeeds, resumes playback
and clears the `waiting` flag (music_player.py line 944), contradicting
the claim that only returning occupancy clears it. -/
theorem resume_clears_waiting :
    resumeCmd waitingPlayer true 4 =
      .ok { waitingPlayer with playing := true, paused := false,
                               waiting := false, lastActivity := 4 } := rfl

/-- C6 amended: `waiting` is set when the channel empties while playing
and cleared with an automatic resume when occupancy returns — but it is
also cleared by any successful explicit resume command. -/
theorem waiting_flag_lifecycle :
    (∀ p : Player, p.playing = true →
       (onChannelEmpty p).waiting = true ∧ (onChannelEmpty p).paused = true) ∧
    (∀ p : Player, p.paused = true → p.waiting = true →
       (onMemberJoin p).playing = true ∧ (onMemberJoin p).waiting = false) ∧
    (∀ (p : Player) (inCh : Bool) (now : Nat) (p' : Player),
       resumeCmd p inCh now = .ok p' →
       p'.waiting = false ∧ p'.playing = true) := by
  refine ⟨?_, ?_, ?_⟩
  · intro p hp
    simp [onChannelEmpty, hp]
  · intro p h1 h2
    simp [onMemberJoin, h1, h2]
  · intro p inCh now p' hc
    unfold resumeCmd at hc
    split at hc
    next => exact absurd hc (by simp)
    next =>
      split at hc
      next => exact absurd hc (by simp)
      next =>
        split at hc
        next => exact absurd hc (by simp)
        next =>
          injection hc with hh
          subst hh
          exact ⟨rfl, rfl⟩

/-- Witness for C6 (amended) at concrete sessions: the channel emptying
sets the flag, a member joining clears it, and a successful resume
clears it. -/
theorem waiting_flag_lifecycle_witness :
    (onChannelEmpty votingPlayer).waiting = true ∧
    (onMemberJoin waitingPlayer).playing = true ∧
    ({ waitingPlayer with playing := true, paused := false,
                          waiting := false, lastActivity := 4 } :
      Player).waiting = false :=
  ⟨(waiting_flag_lifecycle.1 votingPlayer (by decide)).1,
   (waiting_flag_lifecycle.2.1 waitingPlayer (by decide) (by decide)).1,
   (waiting_flag_lifecycle.2.2 waitingPlayer true 4
     { waitingPlayer with playing := true, paused := false,
                          waiting := false, lastActivity := 4 } (by rfl)).1⟩

/-- C7 counterexample: with an empty registry, a play command whose
voice join fails returns an error but leaves the freshly created,
unconnected session registered — the registry is not unchanged. -/
theorem join_failure_keeps_session :
    playConnect none (some 5) 7 false 0 50 =
      (some (freshPlayer 7 0 50), .error .joinFailed) ∧
    (playConnect none (some 5) 7 false 0 50).1 ≠ none := by
  constructor
  · rfl
  · decide

/-- C7 amended: on a play command for a guild with no session, the
session is created and inserted into the registry before the join; a
failed join returns an error with the new session still registered and
unconnected, while a successful join leaves it registered and
connected. -/
theorem play_join_registry (ch boundCh now dv : Nat) :
    playConnect none (some ch) boundCh false now dv =
      (some (freshPlayer boundCh now dv), .error .joinFailed) ∧
    playConnect none (some ch) boundCh true now dv =
      (some { freshPlayer boundCh now dv with
              channel := some ch, lastActivity := now,
              boundChannel := some boundCh },
       .ok ()) := by
  constructor <;> rfl

end MP

theorem cons_get_eraseIdx_perm {α : Type} :
    ∀ (xs : List α) (i : Fin xs.length),
      (xs.get i :: xs.eraseIdx i.val).Perm xs := by
  intro xs
  induction xs with
  | nil => intro i; exact absurd i.isLt (by simp)
  | cons y ys ih =>
    intro i
    match i with
    | ⟨0, _⟩ => simp [List.eraseIdx]
    | ⟨n + 1, hn⟩ =>
      have hn2 : n < ys.length := by simpa using hn
      have step1 : (ys.get ⟨n, hn2⟩ :: y :: ys.eraseIdx n).Perm
          (y :: ys.get ⟨n, hn2⟩ :: ys.eraseIdx n) := List.Perm.swap _ _ _
      have step2 : (y :: ys.get ⟨n, hn2⟩ :: ys.eraseIdx n).Perm (y :: ys) :=
        (ih ⟨n, hn2⟩).cons y
      simpa [List.eraseIdx] using step1.trans step2

theorem shuffleWith_perm {α : Type} :
    ∀ (rs : List Nat) (xs : List α), (MC.shuffleWith rs xs).Perm xs := by
  intro rs
  induction rs with
  | nil => intro xs; simp [MC.shuffleWith]
  | cons r rs ih =>
    intro xs
    cases xs with
    | nil => simp [MC.shuffleWith]
    | cons x xs =>
      simp only [MC.shuffleWith]
      exact ((ih _).cons _).trans (cons_get_eraseIdx_perm (x :: xs) _)

/-- C8 counterexample: with a session registered and playing but the
caller in a different voice channel, the volume command returns an
error and sets no volume, contradicting the claim that it always
succeeds whenever a session exists. -/
theorem volume_wrong_channel :
    MC.volumeCmd (some 2) (some MC.volPlayer) 80 =
      .error .wrongChannel := rfl

/-- C8 amended: for levels restricted by the parameter layer to
[0,150], the volume command succeeds exactly when `ensure_voice` does
(the caller is in a voice channel and, when the bot is connected, in
the bot's channel), and on success it sets the backend volume to the
requested level; a registered session alone does not guarantee
success. -/
theorem volume_success_condition :
    (∀ (uch : Option Nat) (pl : Option MC.MCPlayer) (level : Nat),
       level ≤ 150 →
       MC.isOkE (MC.volumeCmd uch pl level) =
         MC.isOkE (MC.ensureVoice uch pl)) ∧
    (∀ (uch : Option Nat) (pl : Option MC.MCPlayer) (level : Nat)
       (q : MC.MCPlayer), MC.volumeCmd uch pl level = .ok q →
       q.volume = level) := by
  constructor
  · intro uch pl level hle
    unfold MC.volumeCmd
    cases h : MC.ensureVoice uch pl <;> simp [MC.isOkE]
  · intro uch pl level q hc
    unfold MC.volumeCmd at hc
    cases h : MC.ensureVoice uch pl <;> rw [h] at hc
    · exact absurd hc (by simp)
    · injection hc with hh
      subst hh
      rfl

/-- Witness for C8 (amended): a caller in the bot's channel with level
80. -/
theorem volume_success_condition_witness :
    MC.isOkE (MC.volumeCmd (some 1) (some MC.volPlayer) 80) =
      MC.isOkE (MC.ensureVoice (some 1) (some MC.volPlayer)) ∧
    ({ MC.volPlayer with volume := 80 } : MC.MCPlayer).volume = 80 :=
  ⟨volume_success_condition.1 (some 1) (some MC.volPlayer) 80 (by decide),
   volume_success_condition.2 (some 1) (some MC.volPlayer) 80
     { MC.volPlayer with volume := 80 } (by rfl)⟩

/-- C9 counterexample: the shuffle command checks only for an empty
queue, so a single-entry queue — fewer than 2 entries — is shuffled
successfully instead of producing the claimed user-visible error. -/
theorem shuffle_single_entry_ok :
    MC.onePlayer.queue.length = 1 ∧
    MC.shuffleCmd (some 1) (some MC.onePlayer) [0] = .ok MC.onePlayer := by
  constructor
  · rfl
  · rfl

/-- C9 amended: shuffle is a no-op with a user-visible error exactly
when the queue is empty (a one-entry queue is shuffled successfully);
otherwise it applies the sampled random permutation to all queue
entries at the instant of invocation, leaving the multiset of queued
tracks unchanged. -/
theorem shuffle_behavior :
    (∀ (uch : Option Nat) (pl : Option MC.MCPlayer) (rs : List Nat)
       (p : MC.MCPlayer), MC.ensureVoice uch pl = .ok p → p.queue = [] →
       MC.shuffleCmd uch pl rs = .error .emptyQueue) ∧
    (∀ (uch : Option Nat) (pl : Option MC.MCPlayer) (rs : List Nat)
       (p : MC.MCPlayer), MC.ensureVoice uch pl = .ok p → p.queue ≠ [] →
       MC.shuffleCmd uch pl rs =
         .ok { p with queue := MC.shuffleWith rs p.queue } ∧
       (MC.shuffleWith rs p.queue).Perm p.queue) := by
  constructor
  · intro uch pl rs p he hq
    unfold MC.shuffleCmd
    rw [he]
    simp [hq]
  · intro uch pl rs p he hq
    unfold MC.shuffleCmd
    rw [he]
    exact ⟨by simp [hq], shuffleWith_perm rs p.queue⟩

/-- Witness for C9 (amended): shuffling the one-entry queue succeeds
and permutes it. -/
theorem shuffle_behavior_witness :
    MC.shuffleCmd (some 1) (some MC.onePlayer) [0] =
      .ok { MC.onePlayer with
            queue := MC.shuffleWith [0] MC.onePlayer.queue } ∧
    (MC.shuffleWith [0] MC.onePlayer.queue).Perm MC.onePlayer.queue :=
  shuffle_behavior.2 (some 1) (some MC.onePlayer) [0] MC.onePlayer (by rfl)
    (by decide)

/-- C10: the music.py track-end handler pops and starts the next track
only when the guild has a registered session and the queue is
non-empty; a track end for an unregistered guild or an empty queue
changes neither the registry key set nor the player state. -/
theorem track_end_no_session_noop :
    (∀ (sess : List Nat) (g : Nat) (p : MC.MCPlayer), g ∉ sess →
       MC.onTrackEnd sess g p = (sess, p)) ∧
    (∀ (sess : List Nat) (g : Nat) (p : MC.MCPlayer), p.queue = [] →
       MC.onTrackEnd sess g p = (sess, p)) ∧
    (∀ (sess : List Nat) (g : Nat) (p : MC.MCPlayer) (t : Track)
       (rest : List Track), g ∈ sess → p.queue = t :: rest →
       MC.onTrackEnd sess g p =
         (sess, { p with current := some t, queue := rest,
                         playing := true })) := by
  refine ⟨?_, ?_, ?_⟩
  · intro sess g p hg
    unfold MC.onTrackEnd
    split
    next => rfl
    next t rest heq => rw [if_neg hg]
  · intro sess g p hq
    unfold MC.onTrackEnd
    split
    next => rfl
    next t rest heq =>
      rw [hq] at heq
      cases heq
  · intro sess g p t rest hg hq
    unfold MC.onTrackEnd
    split
    next heq =>
      rw [hq] at heq
      cases heq
    next t2 rest2 heq =>
      rw [hq] at heq
      injection heq with h1 h2
      subst h1
      subst h2
      rw [if_pos hg]

/-- Witness for C10: a registered guild with a one-entry queue advances
into that track. -/
theorem track_end_no_session_noop_witness :
    MC.onTrackEnd [9] 9 MC.onePlayer =
      ([9], { MC.onePlayer with
              current := some trackA, queue := [], playing := true }) :=
  track_end_no_session_noop.2.2 [9] 9 MC.onePlayer trackA [] (by decide)
    (by decide)
